import Mathlib

/-!
Verification of the esplay-audio-player playback engine.

This file gives a shallow embedding, in Lean 4, of the parts of the firmware
relevant to the frozen specification claims:

* the player task's index-resolution algorithm (`get_next_song_index`),
  playlist construction (`make_playlist`) and teardown (`player_teardown_task`)
  from `audio_player.c`;
* the codec selector (`choose_codec`, `matches_extension`,
  `fops_determine_filetype`);
* the keypad debounce filter (`keypad_debounce` from `keypad.c`);
* the ID3v2 metadata parser (`syncsafe`, `syncsafe32`, `read_text`,
  `parse_id3`, `mp3_read_metadata` from `mp3_metadata.c`);
* the playlist manager (`playlist_get_current`, `playlist_next`,
  `playlist_prev` from `playlist.c`).

C integer types are modelled by `Nat`/`Int` with explicit wrap-around
(`% 2 ^ 32`, masks) wherever C overflow or truncation matters.  Byte streams
(`FILE *`) are modelled as a function `Nat → Nat` (byte at each offset)
together with an available length; bytes an `fread` would fail to overwrite
(past end of stream) are also drawn from that function, which is universally
quantified in every theorem, so their values are never relied upon.
Heap allocation is modelled by an oracle `alloc : Nat → Bool` giving the
success of the k-th allocation request.
-/

namespace EsplayAudio

/-! ## Player data model (audio_player.h) -/

/-- `enum PlayerCmd` from `audio_player.h`. -/
inductive PlayerCmd
  | none | terminate | pause | next | prev | reinitAudio | toggleLoopMode
deriving DecidableEq, Repr

/-- `enum PlayingMode` from `audio_player.h` (`PlayingModeMax` is only the
count used to wrap `ToggleLoopMode`, not a real mode). -/
inductive PlayingMode
  | normal | repeatSong | repeatPlaylist
deriving DecidableEq, Repr

/-- `enum PlayerResult` from `audio_player.h`. -/
inductive PlayerResult
  | none | error | done | nextSong | prevSong | stop
deriving DecidableEq, Repr

/-- `enum AudioCodec` (from `acodecs.h`, restricted to the tags produced by
`choose_codec`). -/
inductive AudioCodec
  | mod | mp3 | ogg | flac | wav | gme | unknown
deriving DecidableEq, Repr

/-- `enum FileType` from `audio_player.h`, restricted to the constructors the
embedded functions mention (the image/rom tags are never produced or consumed
by the code modelled here). -/
inductive FileType
  | none | folder | mp3 | ogg | mod | wav | flac | gme
deriving DecidableEq, Repr

/-- `struct Song` from `audio_player.h`.  Strings are lists of characters. -/
structure Song where
  filename : List Char
  filepath : List Char
  codec : AudioCodec
deriving DecidableEq, Repr

/-- `struct PlayerState` from `audio_player.h`.  As in the C struct,
`playlist_length` (a `size_t`) and the `playlist` array are separate fields;
`playlist_index` is a C `int`, modelled as `Int`. -/
structure PlayerState where
  playing : Bool
  playlist : List Song
  playlist_length : Nat
  playlist_index : Int
  playing_mode : PlayingMode
deriving DecidableEq, Repr

/-- `struct Entry` from `audio_player.h`.  Only the `name` field is read by
the functions embedded here (`size`, `mode`, `mtime` are used by the directory
scanner, outside the scope of these claims). -/
structure Entry where
  name : List Char
deriving DecidableEq, Repr

/-- `struct AudioPlayerParam` from `audio_player.h`.  `entries`/`n_entries`
are modelled as a single list; `index` is a C `int`. -/
structure AudioPlayerParam where
  entries : List Entry
  index : Int
  cwd : List Char
  play_all : Bool
deriving DecidableEq, Repr

/-! ## Index resolution (`get_next_song_index`, audio_player.c) -/

/-- `get_next_song_index` from `audio_player.c`:

```c
if (res == PlayerResultDone || res == PlayerResultNextSong) {
  if (state->playing_mode != PlayingModeRepeatSong || res == PlayerResultNextSong)
    current_index = (current_index + 1) % (int)state->playlist_length;
} else if (res == PlayerResultPrevSong) {
  if (--current_index < 0)
    current_index = (int)state->playlist_length - 1;
} else if (res == PlayerResultError) {
  current_index = (current_index + 1) % (int)state->playlist_length;
}
return current_index;
```

C's `%` on `int` truncates toward zero, which is `Int.tmod`. -/
def get_next_song_index (state : PlayerState) (res : PlayerResult)
    (current_index : Int) : Int :=
  if res = PlayerResult.done ∨ res = PlayerResult.nextSong then
    if state.playing_mode ≠ PlayingMode.repeatSong ∨ res = PlayerResult.nextSong then
      (current_index + 1).tmod (state.playlist_length : Int)
    else
      current_index
  else if res = PlayerResult.prevSong then
    if current_index - 1 < 0 then (state.playlist_length : Int) - 1
    else current_index - 1
  else if res = PlayerResult.error then
    (current_index + 1).tmod (state.playlist_length : Int)
  else
    current_index

/-! ## Playlist manager (playlist.c) -/

/-- `playlist_manager_t` from `playlist.h`.  `playlists` is a
`char[MAX_PLAYLISTS][MAX_FILENAME_LENGTH]` array; it is modelled as a total
function from index to stored path (indexing outside `[0, MAX_PLAYLISTS)` is
out of bounds in C and never exercised by the theorems below).
`num_playlists` and `current_index` are C `int`s. -/
structure PlaylistManager where
  playlists : Int → List Char
  num_playlists : Int
  current_index : Int

/-- `playlist_get_current` from `playlist.c`: returns `NULL` (`none`) when
the playlist is empty, otherwise the address of the current entry (an array
element, hence never `NULL`). -/
def playlist_get_current (pl : PlaylistManager) : Option (List Char) :=
  if pl.num_playlists = 0 then none
  else some (pl.playlists pl.current_index)

/-- `playlist_next` from `playlist.c` (C `%` = `Int.tmod`). -/
def playlist_next (pl : PlaylistManager) : PlaylistManager :=
  if pl.num_playlists = 0 then pl
  else { pl with current_index := (pl.current_index + 1).tmod pl.num_playlists }

/-- `playlist_prev` from `playlist.c` (C `%` = `Int.tmod`). -/
def playlist_prev (pl : PlaylistManager) : PlaylistManager :=
  if pl.num_playlists = 0 then pl
  else { pl with current_index :=
           (pl.current_index - 1 + pl.num_playlists).tmod pl.num_playlists }

/-! ## Codec selector (audio_player.c) -/

/-- ASCII `tolower`, as used by `strncasecmp` on the extension characters. -/
def lowerChar (c : Char) : Char :=
  if 'A' ≤ c ∧ c ≤ 'Z' then Char.ofNat (c.toNat + 32) else c

/-- `strncasecmp(a, b, n) == 0`.  Both arguments, at every use in this file,
are NUL-free character runs of length at least `n` (an extension literal and a
filename suffix of exactly `n` characters), for which `strncasecmp` returning
zero is exactly case-insensitive equality of the first `n` characters. -/
def strncasecmpEq (a b : List Char) (n : Nat) : Bool :=
  (a.take n).map lowerChar == (b.take n).map lowerChar

/-- `matches_extension` from `audio_player.c`: the parallel arrays
`exts`/`ext_lens` are modelled as a list of pairs; the loop succeeds if any
extension of length `ext_len` satisfies
`len >= ext_len && !strncasecmp(exts[i], &filename[len - ext_len], ext_len)`. -/
def matches_extension (filename : List Char) (len : Nat)
    (exts : List (List Char × Nat)) : Bool :=
  exts.any fun e =>
    decide (e.2 ≤ len) && strncasecmpEq e.1 (filename.drop (len - e.2)) e.2

/-- `fops_determine_filetype` from `audio_player.c`: filenames shorter than 4
characters are rejected, then suffixes are tried in source order. -/
def fops_determine_filetype (name : List Char) : FileType :=
  let len := name.length
  if len < 4 then FileType.none
  else if matches_extension name len [("mp3".toList, 3)] then FileType.mp3
  else if matches_extension name len [("ogg".toList, 3)] then FileType.ogg
  else if matches_extension name len
      [("xm".toList, 2), ("mod".toList, 3), ("s3m".toList, 3), ("it".toList, 2)] then
    FileType.mod
  else if matches_extension name len [("wav".toList, 3)] then FileType.wav
  else if matches_extension name len [("flac".toList, 4)] then FileType.flac
  else FileType.none

/-- `choose_codec` from `audio_player.c`. -/
def choose_codec : FileType → AudioCodec
  | FileType.mod => AudioCodec.mod
  | FileType.mp3 => AudioCodec.mp3
  | FileType.ogg => AudioCodec.ogg
  | FileType.flac => AudioCodec.flac
  | FileType.wav => AudioCodec.wav
  | FileType.gme => AudioCodec.gme
  | _ => AudioCodec.unknown

/-! Spec-side definitions for the codec-classification claim.  The claim
speaks of "the filename's extension": the part after the last dot, absent
when the name contains no dot.  These definitions follow the claim's words,
to be compared with the source-derived classifier above. -/

/-- The filename's extension in the usual sense: the characters after the
last `'.'`, or `none` when the name contains no dot. -/
def fileExtension (name : List Char) : Option (List Char) :=
  if name.contains '.' then
    some (name.reverse.takeWhile (· ≠ '.')).reverse
  else
    none

/-- The codec mapping exactly as the claim states it: the extension,
case-insensitively, decides the codec, and a filename whose extension is none
of the listed ones maps to `unknown`. -/
def claimedCodecOfFilename (name : List Char) : AudioCodec :=
  match fileExtension name with
  | Option.none => AudioCodec.unknown
  | Option.some ext =>
    let l := ext.map lowerChar
    if l = "mp3".toList then AudioCodec.mp3
    else if l = "ogg".toList then AudioCodec.ogg
    else if l = "xm".toList ∨ l = "mod".toList ∨ l = "s3m".toList ∨ l = "it".toList then
      AudioCodec.mod
    else if l = "wav".toList then AudioCodec.wav
    else if l = "flac".toList then AudioCodec.flac
    else AudioCodec.unknown

/-- The amended, source-accurate classification: a case-insensitive *suffix*
match (no dot required) on names of length at least 4, tried in source
order. -/
def suffixCodec (name : List Char) : AudioCodec :=
  let l := name.map lowerChar
  if name.length < 4 then AudioCodec.unknown
  else if "mp3".toList.isSuffixOf l then AudioCodec.mp3
  else if "ogg".toList.isSuffixOf l then AudioCodec.ogg
  else if "xm".toList.isSuffixOf l || ("mod".toList.isSuffixOf l ||
      ("s3m".toList.isSuffixOf l || "it".toList.isSuffixOf l)) then AudioCodec.mod
  else if "wav".toList.isSuffixOf l then AudioCodec.wav
  else if "flac".toList.isSuffixOf l then AudioCodec.flac
  else AudioCodec.unknown

/-- One extension test of the `matches_extension` loop equals a
case-insensitive suffix test on the lowercased filename. -/
theorem ext_term (e : List Char) (n : Nat) (name : List Char)
    (he : e.map lowerChar = e) (hn : e.length = n) (hlen : n ≤ name.length) :
    (decide (n ≤ name.length) && strncasecmpEq e (name.drop (name.length - n)) n) =
      e.isSuffixOf (name.map lowerChar) := by
  rw [Bool.eq_iff_iff]
  simp only [Bool.and_eq_true, decide_eq_true_eq, strncasecmpEq, beq_iff_eq]
  rw [List.isSuffixOf_iff_suffix, List.suffix_iff_eq_drop]
  subst hn
  rw [List.take_of_length_le (le_refl _), he]
  rw [List.take_of_length_le (by rw [List.length_drop]; omega)]
  rw [List.length_map, ← List.map_drop]
  exact ⟨fun h => h.2, fun h => ⟨hlen, h⟩⟩

example : choose_codec (fops_determine_filetype "a.mp3".toList) = AudioCodec.mp3 := by decide
example : choose_codec (fops_determine_filetype "A.FLAC".toList) = AudioCodec.flac := by decide
example : choose_codec (fops_determine_filetype "limit".toList) = AudioCodec.mod := by decide
example : claimedCodecOfFilename "limit".toList = AudioCodec.unknown := by decide
example : suffixCodec "limit".toList = AudioCodec.mod := by decide
example : fops_determine_filetype "b.it".toList = FileType.mod := by decide
example : fops_determine_filetype ".it".toList = FileType.none := by decide

/-! ## Keypad debounce filter (keypad.c) -/

/-- The persistent filter state of `keypad_debounce`: the three
`static uint16_t` variables `state`, `cnt0`, `cnt1`. -/
structure KeypadState where
  state : Nat
  cnt0 : Nat
  cnt1 : Nat
deriving DecidableEq, Repr

/-- `keypad_debounce` from `keypad.c`:

```c
delta = sample ^ state;
cnt1 = (cnt1 ^ cnt0) & delta;
cnt0 = ~cnt0 & delta;
toggle = delta & ~(cnt0 | cnt1);
state ^= toggle;
*changes = toggle;
return state;
```

All variables are `uint16_t`; the `uint16_t` parameter truncates the caller's
sample (`% 2 ^ 16`), and `~x` lands in a `uint16_t` and is AND-ed with a
16-bit value, so it is `(2 ^ 16 - 1) ^^^ x` on the low 16 bits.  Returns the
new filter state paired with the reported change mask `toggle`. -/
def keypad_debounce (sample0 : Nat) (k : KeypadState) : KeypadState × Nat :=
  let sample := sample0 % 2 ^ 16
  let delta := sample ^^^ k.state
  let cnt1 := (k.cnt1 ^^^ k.cnt0) &&& delta
  let cnt0 := ((2 ^ 16 - 1) ^^^ k.cnt0) &&& delta
  let toggle := delta &&& ((2 ^ 16 - 1) ^^^ (cnt0 ||| cnt1))
  ({ state := k.state ^^^ toggle, cnt0 := cnt0, cnt1 := cnt1 }, toggle)

/-- One debounce round, restricted to a single bit: the new `cnt1` bit. -/
def c1Bit (x st c0 c1 : Bool) : Bool := (c1 != c0) && (x != st)

/-- One debounce round, restricted to a single bit: the new `cnt0` bit. -/
def c0Bit (x st c0 : Bool) : Bool := (!c0) && (x != st)

/-- One debounce round, restricted to a single bit: the `toggle` bit. -/
def tBit (x st c0 c1 : Bool) : Bool :=
  (x != st) && !(c0Bit x st c0 || c1Bit x st c0 c1)

/-- One debounce round, restricted to a single bit: the new `state` bit. -/
def stBit (x st c0 c1 : Bool) : Bool := st != tBit x st c0 c1

/-- `keypad_debounce` acts independently on each of the 16 bit positions,
by the per-bit functions above. -/
theorem keypad_debounce_testBit (k : KeypadState) (s b : Nat) (hb : b < 16) :
    (keypad_debounce s k).1.state.testBit b
        = stBit (s.testBit b) (k.state.testBit b) (k.cnt0.testBit b)
            (k.cnt1.testBit b) ∧
    (keypad_debounce s k).1.cnt0.testBit b
        = c0Bit (s.testBit b) (k.state.testBit b) (k.cnt0.testBit b) ∧
    (keypad_debounce s k).1.cnt1.testBit b
        = c1Bit (s.testBit b) (k.state.testBit b) (k.cnt0.testBit b)
            (k.cnt1.testBit b) ∧
    (keypad_debounce s k).2.testBit b
        = tBit (s.testBit b) (k.state.testBit b) (k.cnt0.testBit b)
            (k.cnt1.testBit b) := by
  simp only [keypad_debounce, stBit, tBit, c0Bit, c1Bit,
    Nat.testBit_xor, Nat.testBit_and, Nat.testBit_or, Nat.testBit_mod_two_pow,
    Nat.testBit_two_pow_sub_one, hb]
  cases hx : s.testBit b <;> cases hst : k.state.testBit b <;>
    cases hc0 : k.cnt0.testBit b <;> cases hc1 : k.cnt1.testBit b <;> simp_all

/-! ## ID3v2 metadata parser (mp3_metadata.c)

A `FILE *` byte stream is modelled by `f : Nat → Nat` (the byte `fread`
delivers for each absolute offset) together with `avail : Nat`, the number of
bytes actually available; reads are sequential and tracked by an explicit
position.  Bytes at offsets `>= avail` are the ones a short `fread` would
leave unwritten in the destination buffer (indeterminate in C); they are
drawn from the same `f`, which every theorem quantifies over, so no result
depends on their values. -/

/-- `syncsafe` from `mp3_metadata.c` (the "ID3v2.3 style" decoder used for
the *tag* size): `(b[0] << 21) | (b[1] << 14) | (b[2] << 7) | b[3]`, with no
masking of the high bit. -/
def syncsafe (b0 b1 b2 b3 : Nat) : Nat :=
  (b0 <<< 21) ||| (b1 <<< 14) ||| (b2 <<< 7) ||| b3

/-- `syncsafe32` from `mp3_metadata.c` (the "ID3v2.4 style" decoder used for
v2.4 *frame* sizes): each byte is masked to its low 7 bits. -/
def syncsafe32 (b0 b1 b2 b3 : Nat) : Nat :=
  ((b0 &&& 0x7F) <<< 21) ||| ((b1 &&& 0x7F) <<< 14) |||
    ((b2 &&& 0x7F) <<< 7) ||| (b3 &&& 0x7F)

/-- Plain 32-bit big-endian frame size, used for tag versions other than 4:
`(fh[4] << 24) | (fh[5] << 16) | (fh[6] << 8) | fh[7]`. -/
def beU32 (b0 b1 b2 b3 : Nat) : Nat :=
  (b0 <<< 24) ||| (b1 <<< 16) ||| (b2 <<< 8) ||| b3

/-- Decode one UTF-16 code unit with the byte order selected by the BOM:
`le ? (c[0] | (c[1] << 8)) : (c[1] | (c[0] << 8))`. -/
def utf16_unit (le : Bool) (c0 c1 : Nat) : Nat :=
  if le then c0 ||| (c1 <<< 8) else c1 ||| (c0 <<< 8)

/-- The `while (size >= 2 && o < max - 1)` loop of `read_text`'s UTF-16
branch.  `size` is a `uint32_t` holding the remaining payload byte count,
`o` the output cursor, `pos` the stream position.  Each round `fread`s two
bytes (advancing by the bytes actually available), decodes a code unit with
the byte order chosen by the BOM, stops at a null code unit, and otherwise
stores the unit when below 128 and `'?'` (63) when not.  Returns the bytes
stored and the number of stream bytes consumed from `pos`. -/
def read_text_loop (f : Nat → Nat) (avail : Nat) (le : Bool) (max : Nat) :
    Nat → Nat → Nat → List Nat × Nat
  | size + 2, pos, o =>
    if o < max - 1 then
      if utf16_unit le (f pos) (f (pos + 1)) = 0 then ([], min 2 (avail - pos))
      else
        let r := read_text_loop f avail le max size (pos + min 2 (avail - pos))
          (o + 1)
        ((if utf16_unit le (f pos) (f (pos + 1)) < 128 then
            utf16_unit le (f pos) (f (pos + 1)) else 63) :: r.1,
          min 2 (avail - pos) + r.2)
    else ([], 0)
  | _, _, _ => ([], 0)

/-- `read_text` from `mp3_metadata.c`.  `size0` is the frame payload size
(`uint32_t`, so decrements wrap at `2 ^ 32`), `max` the destination capacity.
Returns the bytes written to the destination (terminator included — every
path writes one) and the number of stream bytes consumed from `pos`. -/
def read_text (size0 : Nat) (f : Nat → Nat) (avail pos : Nat) (max : Nat) :
    List Nat × Nat :=
  if max < 2 then ([0], 0)
  else if avail ≤ pos then ([0], 0)
  else
    let enc := f pos
    let pos1 := pos + 1
    let size := (size0 + (2 ^ 32 - 1)) % 2 ^ 32
    if size = 0 then ([0], 1)
    else if enc = 0 ∨ enc = 3 then
      let size2 := if max ≤ size then max - 1 else size
      let rd := min size2 (avail - pos1)
      (((List.range rd).map fun i => f (pos1 + i)) ++ [0], 1 + rd)
    else if enc = 1 ∨ enc = 2 then
      let bom0 := if pos1 < avail then f pos1 else 0
      let bom1 := if pos1 + 1 < avail then f (pos1 + 1) else 0
      let size2 := (size + (2 ^ 32 - 2)) % 2 ^ 32
      let le := !(bom0 == 254 && bom1 == 255)
      let r := read_text_loop f avail le max size2 (pos1 + min 2 (avail - pos1)) 0
      (r.1 ++ [0], 1 + min 2 (avail - pos1) + r.2)
    else ([0], 1)

/-- `mp3_metadata_t`: the written contents of the three 64-byte text
buffers.  A zeroed buffer holds the empty string, modelled as `[]`; after a
`read_text` the field holds the bytes written, terminator included. -/
structure Mp3Meta where
  title : List Nat
  artist : List Nat
  album : List Nat
deriving DecidableEq, Repr

/-- The metadata struct after `memset(meta, 0, sizeof(*meta))`. -/
def zeroMeta : Mp3Meta := { title := [], artist := [], album := [] }

/-- `!strcmp(id, "XXXX")` where `id` is the 4-byte frame identifier copied
from the frame header at `pos` (none of the identifiers compared against
contain NUL, so `strcmp` equality is plain byte equality). -/
def frame_id_is (f : Nat → Nat) (pos : Nat) (a b c d : Char) : Bool :=
  f pos == a.toNat && (f (pos + 1) == b.toNat &&
    (f (pos + 2) == c.toNat && f (pos + 3) == d.toNat))

/-- The frame loop of `parse_id3`: `while (read < tag_size)`, reading 10-byte
frame headers, stopping on a short header read, a zero leading id byte, or a
zero frame size; `TIT2`/`TPE1`/`TALB` payloads go through `read_text` into
the corresponding 64-byte field, every other frame is skipped with
`fseek(f, sz, SEEK_CUR)`.  `read` is a `uint32_t` accumulator.  Returns the
metadata and the final absolute stream position. -/
def parse_id3_loop (f : Nat → Nat) (avail : Nat) (ver : Nat) (tag_size : Nat)
    (meta : Mp3Meta) (read pos : Nat) : Mp3Meta × Nat :=
  if read < tag_size then
    if avail < pos + 10 then (meta, pos + min 10 (avail - pos))
    else
      if f pos = 0 then (meta, pos + 10)
      else
        let sz := if ver = 4 then
            syncsafe32 (f (pos + 4)) (f (pos + 5)) (f (pos + 6)) (f (pos + 7))
          else
            beU32 (f (pos + 4)) (f (pos + 5)) (f (pos + 6)) (f (pos + 7))
        let read2 := (read + 10 + sz) % 2 ^ 32
        if sz = 0 then (meta, pos + 10)
        else if frame_id_is f pos 'T' 'I' 'T' '2' then
          let r := read_text sz f avail (pos + 10) 64
          parse_id3_loop f avail ver tag_size { meta with title := r.1 } read2
            (pos + 10 + r.2)
        else if frame_id_is f pos 'T' 'P' 'E' '1' then
          let r := read_text sz f avail (pos + 10) 64
          parse_id3_loop f avail ver tag_size { meta with artist := r.1 } read2
            (pos + 10 + r.2)
        else if frame_id_is f pos 'T' 'A' 'L' 'B' then
          let r := read_text sz f avail (pos + 10) 64
          parse_id3_loop f avail ver tag_size { meta with album := r.1 } read2
            (pos + 10 + r.2)
        else
          parse_id3_loop f avail ver tag_size meta read2 (pos + 10 + sz)
  else (meta, pos)
termination_by avail + 10 - pos
decreasing_by all_goals omega

/-- `parse_id3` from `mp3_metadata.c`: read the 10-byte header (a short read
leaves trailing header bytes indeterminate and is not detected, as in the C);
if the first three bytes are not `"ID3"`, `fseek` back to the start and
return the metadata untouched; otherwise decode the tag size with the
*unmasked* `syncsafe` and run the frame loop. -/
def parse_id3 (f : Nat → Nat) (avail : Nat) (meta : Mp3Meta) : Mp3Meta × Nat :=
  let pos0 := min 10 avail
  if f 0 = 73 ∧ f 1 = 68 ∧ f 2 = 51 then
    let ver := f 3
    let tag_size := syncsafe (f 6) (f 7) (f 8) (f 9)
    parse_id3_loop f avail ver tag_size meta 0 pos0
  else
    (meta, 0)

/-- `mp3_read_metadata` from `mp3_metadata.c`: zero the struct, `fopen`
(`none` = open failure → `false`), otherwise parse and return `true`.  A
file is an available-byte count plus its contents. -/
def mp3_read_metadata (file : Option ((Nat → Nat) × Nat)) : Bool × Mp3Meta :=
  match file with
  | Option.none => (false, zeroMeta)
  | Option.some (f, avail) => (true, (parse_id3 f avail zeroMeta).1)

/-- Every byte the UTF-16 loop stores is a non-NUL ASCII byte, and the loop
stores fewer than `max - o` of them. -/
theorem read_text_loop_spec (f : Nat → Nat) (avail : Nat) (le : Bool)
    (max : Nat) : ∀ size pos o,
    (read_text_loop f avail le max size pos o).1.length ≤ max - 1 - o ∧
    ∀ x ∈ (read_text_loop f avail le max size pos o).1, x < 128 ∧ x ≠ 0 := by
  intro size
  induction size using Nat.strong_induction_on with
  | _ size ih =>
    intro pos o
    match size with
    | 0 => simp [read_text_loop]
    | 1 => simp [read_text_loop]
    | (s + 2) =>
      rw [read_text_loop]
      split
      · split
        · simp
        · rename_i ho hch
          obtain ⟨ihl, ihm⟩ := ih s (by omega) (pos + min 2 (avail - pos)) (o + 1)
          constructor
          · simp only [List.length_cons]
            omega
          · intro x hx
            simp only [List.mem_cons] at hx
            rcases hx with hx | hx
            · subst hx
              split
              · rename_i hlt
                exact ⟨hlt, hch⟩
              · exact ⟨by omega, by omega⟩
            · exact ihm x hx
      · simp

/-! ## Playlist construction (audio_player.c)

Heap allocation is modelled by an oracle `alloc : Nat → Bool`: `alloc k` is
whether the k-th `malloc` call of the run returns non-NULL (C997 leaves
`malloc(0)` implementation-defined: it may return NULL or a unique pointer,
so the oracle answers for zero-byte requests too).  Functions thread the
allocation counter and return it alongside their result. -/

/-- `create_song_from_entry` from `audio_player.c`: allocate the `Song`,
resolve the codec, build `"<cwd>/<name>"` with `snprintf`, allocate and fill
`filename` and `filepath` (freeing on partial failure — frees are not
tracked).  `PATH_MAX` truncation of `pathbuf` is not modelled; every path in
this repository is far below `PATH_MAX`. -/
def create_song_from_entry (alloc : Nat → Bool) (k : Nat) (entry : Entry)
    (cwd : List Char) : Option Song × Nat :=
  if alloc k then
    let codec := choose_codec (fops_determine_filetype entry.name)
    if alloc (k + 1) then
      if alloc (k + 2) then
        (Option.some { filename := entry.name,
                       filepath := cwd ++ '/' :: entry.name,
                       codec := codec }, k + 3)
      else (Option.none, k + 3)
    else (Option.none, k + 2)
  else (Option.none, k + 1)

/-- The scan accumulator of `make_playlist`'s play-all entry loop:
`start_song` and the `song_indices[]`/`j` pair (the array and its fill count
are one list here; the C array is `song_indices[MAX_SONGS]` with
`MAX_SONGS = 1024`, so the source is only defined when at most 1024 entries
are playable). -/
structure ScanAcc where
  start_song : Nat
  song_indices : List Nat
deriving DecidableEq, Repr

/-- One iteration of the play-all entry loop: a playable entry records its
scan index, first noting the playlist position (`j`, the current count) when
the entry's scan index equals `params.index` (the C compares
`(size_t)params.index == i`; a negative `index` wraps to a huge `size_t`
and never matches, as here with `Int` equality against a list index). -/
def scan_step (params_index : Int) (acc : ScanAcc) (ie : Nat × Entry) : ScanAcc :=
  if choose_codec (fops_determine_filetype ie.2.name) ≠ AudioCodec.unknown then
    { start_song := if params_index = (ie.1 : Int) then acc.song_indices.length
        else acc.start_song,
      song_indices := acc.song_indices ++ [ie.1] }
  else acc

/-- The whole play-all entry scan: `start_song`, `n_songs` (the list length)
and `song_indices`. -/
def scan_entries (params : AudioPlayerParam) : ScanAcc :=
  params.entries.enum.foldl (scan_step params.index) ⟨0, []⟩

/-- The song-construction loop of `make_playlist`: build a `Song` for each
recorded index in order, stopping with failure if any construction fails
(the already-built prefix stays in the array).  Returns the songs built, the
allocation counter, and the success flag. -/
def build_songs (alloc : Nat → Bool) (cwd : List Char) (entries : List Entry) :
    List Nat → Nat → List Song × Nat × Bool
  | [], k => ([], k, true)
  | i :: rest, k =>
    match create_song_from_entry alloc k (entries.getD i ⟨[]⟩) cwd with
    | (Option.none, k2) => ([], k2, false)
    | (Option.some s, k2) =>
      let r := build_songs alloc cwd entries rest k2
      (s :: r.1, r.2.1, r.2.2)

/-- `make_playlist` from `audio_player.c`.  Returns the C result code
(`0` success, `-1` failure), the updated `PlayerState`, and the allocation
counter.  Mirrors the source faithfully: in play-all mode there is no
emptiness check — after the scan it allocates `n_songs * sizeof(Song)` bytes
(an `alloc` query even when `n_songs = 0`), sets `playlist_length` *before*
the fill loop, and records `playlist_index = start_song` only on success; in
single mode an Unknown codec fails first, and on success `playlist_index` is
*not* assigned (the caller's previous value survives).  On failure the C
leaves `state->playlist` as a dead pointer; the model keeps the previous
field values where the C writes nothing meaningful. -/
def make_playlist (alloc : Nat → Bool) (k : Nat) (state : PlayerState)
    (params : AudioPlayerParam) : Int × PlayerState × Nat :=
  if params.play_all then
    let acc := scan_entries params
    let n_songs := acc.song_indices.length
    if alloc k then
      let st1 := { state with playlist_length := n_songs }
      let b := build_songs alloc params.cwd params.entries acc.song_indices (k + 1)
      if b.2.2 then
        (0, { st1 with
                playlist := b.1
                playlist_index := (acc.start_song : Int) }, b.2.1)
      else
        (-1, { st1 with playlist := b.1 }, b.2.1)
    else
      (-1, state, k + 1)
  else
    let entry := params.entries.getD params.index.toNat ⟨[]⟩
    let codec := choose_codec (fops_determine_filetype entry.name)
    if codec = AudioCodec.unknown then (-1, state, k)
    else if alloc k then
      match create_song_from_entry alloc (k + 1) entry params.cwd with
      | (Option.none, k2) => (-1, state, k2)
      | (Option.some s, k2) =>
        (0, { state with playlist := [s], playlist_length := 1 }, k2)
    else (-1, state, k + 1)

/-! ## Player task command handling and teardown (audio_player.c) -/

/-- `ToggleLoopMode`: `playing_mode = (playing_mode + 1) % PlayingModeMax`. -/
def toggle_mode : PlayingMode → PlayingMode
  | PlayingMode.normal => PlayingMode.repeatSong
  | PlayingMode.repeatSong => PlayingMode.repeatPlaylist
  | PlayingMode.repeatPlaylist => PlayingMode.normal

/-- `handle_cmd` from `audio_player.c`, restricted to its effect on
`PlayerState` and its returned `PlayerResult` (the `audio_init` /
`audio_terminate` calls on the output sink carry no state modelled here). -/
def handle_cmd (state : PlayerState) (cmd : PlayerCmd) : PlayerState × PlayerResult :=
  match cmd with
  | PlayerCmd.none => (state, PlayerResult.done)
  | PlayerCmd.pause => ({ state with playing := !state.playing }, PlayerResult.done)
  | PlayerCmd.reinitAudio => (state, PlayerResult.done)
  | PlayerCmd.toggleLoopMode =>
      ({ state with playing_mode := toggle_mode state.playing_mode }, PlayerResult.done)
  | PlayerCmd.terminate => (state, PlayerResult.stop)
  | PlayerCmd.next => (state, PlayerResult.nextSong)
  | PlayerCmd.prev => (state, PlayerResult.prevSong)

/-- Outcome of one iteration of `play_song`'s decode loop: either the loop
exits with a `PlayerResult`, or it continues with the updated state and the
`n_frames` value the `while (n_frames > 0)` test will see next. -/
inductive LoopOutcome
  | exit (res : PlayerResult)
  | next (st : PlayerState) (n_frames : Int)
deriving DecidableEq, Repr

/-- One iteration of the decode loop in `play_song`:

```c
if ((result = handle_cmd(state, info, player_poll_cmd())) != PlayerResultDone)
  break;
if (state->playing) { n_frames = decode(...); audio_submit(...); }
else usleep(10 * 1000);
} while (n_frames > 0);
```

`cmd` is the polled command, `n_decoded` what the decoder would return if
called this iteration, `n_prev` the previous iteration's `n_frames` (kept
when paused). -/
def decode_loop_iter (st : PlayerState) (cmd : PlayerCmd) (n_decoded n_prev : Int) :
    LoopOutcome :=
  let r := handle_cmd st cmd
  if r.2 ≠ PlayerResult.done then LoopOutcome.exit r.2
  else if r.1.playing then
    if n_decoded > 0 then LoopOutcome.next r.1 n_decoded
    else LoopOutcome.exit PlayerResult.done
  else
    if n_prev > 0 then LoopOutcome.next r.1 n_prev
    else LoopOutcome.exit PlayerResult.done

/-- The three operations `player_teardown_task` performs, in source order. -/
inductive TeardownStep
  | wdtDelete | taskDelete | freePlaylist
deriving DecidableEq, Repr

/-- `player_teardown_task` from `audio_player.c`, as its source-order
operation list:

```c
esp_task_wdt_delete(xTaskGetCurrentTaskHandle());
vTaskDelete(NULL);
free_playlist(&player_state);
```
-/
def player_teardown_task : List TeardownStep :=
  [TeardownStep.wdtDelete, TeardownStep.taskDelete, TeardownStep.freePlaylist]

/-- Execution of a straight-line operation list by the player task:
`vTaskDelete(NULL)` deletes the calling task, so nothing after it runs. -/
def run_teardown : List TeardownStep → List TeardownStep
  | [] => []
  | s :: rest =>
    s :: (if s = TeardownStep.taskDelete then [] else run_teardown rest)

/-! ## Theorems -/

/-- C1: index resolution.  For every playlist length `L > 0`, loop mode, and
in-range current index `i`, `get_next_song_index` returns `i` unchanged on a
natural end (`PlayerResultDone`) in RepeatSong mode; `(i+1) mod L` on a
natural end in any other mode, on an explicit Next, and on a decode error
(both regardless of mode); and `(i-1+L) mod L` on an explicit Prev.  In
particular Next from `L-1` yields `0` and Prev from `0` yields `L-1`. -/
theorem c1_index_resolution (st : PlayerState) (i : Int)
    (hL : 0 < st.playlist_length)
    (hi0 : 0 ≤ i) (hiL : i < (st.playlist_length : Int)) :
    (st.playing_mode = PlayingMode.repeatSong →
      get_next_song_index st PlayerResult.done i = i) ∧
    (st.playing_mode ≠ PlayingMode.repeatSong →
      get_next_song_index st PlayerResult.done i =
        (i + 1) % (st.playlist_length : Int)) ∧
    get_next_song_index st PlayerResult.nextSong i =
      (i + 1) % (st.playlist_length : Int) ∧
    get_next_song_index st PlayerResult.error i =
      (i + 1) % (st.playlist_length : Int) ∧
    get_next_song_index st PlayerResult.prevSong i =
      (i - 1 + (st.playlist_length : Int)) % (st.playlist_length : Int) ∧
    get_next_song_index st PlayerResult.nextSong ((st.playlist_length : Int) - 1) = 0 ∧
    get_next_song_index st PlayerResult.prevSong 0 = (st.playlist_length : Int) - 1 := by
  have hLpos : (0 : Int) < (st.playlist_length : Int) := by exact_mod_cast hL
  have hadv : ∀ j : Int, 0 ≤ j →
      (j + 1).tmod (st.playlist_length : Int) = (j + 1) % (st.playlist_length : Int) :=
    fun j hj => Int.tmod_eq_emod (by omega) (by omega)
  refine ⟨?_, ?_, ?_, ?_, ?_, ?_, ?_⟩
  · intro hm
    simp [get_next_song_index, hm]
  · intro hm
    simp [get_next_song_index, hm]
    exact hadv i hi0
  · simp [get_next_song_index]
    exact hadv i hi0
  · simp [get_next_song_index]
    exact hadv i hi0
  · simp [get_next_song_index]
    by_cases h0 : i - 1 < 0
    · have hi' : i = 0 := by omega
      subst hi'
      rw [if_pos (by omega : (0 : Int) < 1)]
      have e : ((0 : Int) - 1) = -1 := by ring
      rw [e, Int.neg_emod, Int.emod_eq_of_lt (by omega) (by omega)]
    · rw [if_neg (by omega : ¬ i < 1)]
      exact (Int.emod_eq_of_lt (by omega) (by omega)).symm
  · simp [get_next_song_index]
  · simp [get_next_song_index]

/-- Concrete state used by witnesses for the player-task theorems. -/
def stNormal3 : PlayerState :=
  { playing := false, playlist := [], playlist_length := 3, playlist_index := 0,
    playing_mode := PlayingMode.normal }

/-- Witness for C1: on a 3-song playlist in Normal mode, Next from the last
index wraps to 0 and Prev from 0 wraps to the last index. -/
theorem c1_index_resolution_witness :
    get_next_song_index stNormal3 PlayerResult.nextSong
        ((stNormal3.playlist_length : Int) - 1) = 0 ∧
    get_next_song_index stNormal3 PlayerResult.prevSong 0 =
        (stNormal3.playlist_length : Int) - 1 := by
  have h := c1_index_resolution stNormal3 1 (by decide) (by decide) (by decide)
  exact ⟨h.2.2.2.2.2.1, h.2.2.2.2.2.2⟩

/-- C8 (counterexample): the claim says classification is by the filename's
*extension*, with non-listed extensions mapping to Unknown; but the code
matches case-insensitive *suffixes* with no dot required, so the filename
`"limit"` — which has no extension at all — is classified MOD because it ends
in `"it"`. -/
theorem c8_extension_counterexample :
    choose_codec (fops_determine_filetype "limit".toList) = AudioCodec.mod ∧
    claimedCodecOfFilename "limit".toList = AudioCodec.unknown ∧
    AudioCodec.mod ≠ AudioCodec.unknown := by
  refine ⟨by decide, by decide, by decide⟩

/-- C8 (amended): for every filename, the classification equals a
case-insensitive *suffix* match on names of length at least 4, tried in
source order (`mp3`→MP3, `ogg`→OGG, `xm`/`mod`/`s3m`/`it`→MOD, `wav`→WAV,
`flac`→FLAC, anything else — including names shorter than 4 characters —
→ Unknown); the matching suffix need not be preceded by a dot. -/
theorem c8_suffix_classification (name : List Char) :
    choose_codec (fops_determine_filetype name) = suffixCodec name := by
  unfold fops_determine_filetype suffixCodec
  by_cases h4 : name.length < 4
  · simp [h4, choose_codec]
  · simp only [matches_extension, List.any_cons, List.any_nil, Bool.or_false]
    rw [ext_term "mp3".toList 3 name (by decide) (by decide) (by omega),
        ext_term "ogg".toList 3 name (by decide) (by decide) (by omega),
        ext_term "xm".toList 2 name (by decide) (by decide) (by omega),
        ext_term "mod".toList 3 name (by decide) (by decide) (by omega),
        ext_term "s3m".toList 3 name (by decide) (by decide) (by omega),
        ext_term "it".toList 2 name (by decide) (by decide) (by omega),
        ext_term "wav".toList 3 name (by decide) (by decide) (by omega),
        ext_term "flac".toList 4 name (by decide) (by decide) (by omega)]
    simp only [h4, if_false]
    split <;> try rfl
    split <;> try rfl
    split <;> try rfl
    split <;> try rfl
    split <;> rfl

/-- C10: the playlist manager.  With an empty playlist, `playlist_next` and
`playlist_prev` leave the state unchanged and `playlist_get_current` returns
`NULL`; with a non-empty playlist and an in-range index, both navigation
functions preserve `0 <= current_index < num_playlists` (wrapping at the
ends) without touching the other fields, and `playlist_get_current` returns
a non-NULL path. -/
theorem c10_playlist_manager (pl : PlaylistManager) :
    (pl.num_playlists = 0 →
      playlist_next pl = pl ∧ playlist_prev pl = pl ∧
      playlist_get_current pl = Option.none) ∧
    (0 < pl.num_playlists → 0 ≤ pl.current_index →
      pl.current_index < pl.num_playlists →
      ((playlist_next pl).num_playlists = pl.num_playlists ∧
        0 ≤ (playlist_next pl).current_index ∧
        (playlist_next pl).current_index < pl.num_playlists) ∧
      ((playlist_prev pl).num_playlists = pl.num_playlists ∧
        0 ≤ (playlist_prev pl).current_index ∧
        (playlist_prev pl).current_index < pl.num_playlists) ∧
      (pl.current_index = pl.num_playlists - 1 →
        (playlist_next pl).current_index = 0) ∧
      (pl.current_index = 0 →
        (playlist_prev pl).current_index = pl.num_playlists - 1) ∧
      (playlist_get_current pl).isSome = true) := by
  constructor
  · intro h0
    simp [playlist_next, playlist_prev, playlist_get_current, h0]
  · intro hpos hi0 hin
    have hne : pl.num_playlists ≠ 0 := by omega
    have hnext : (playlist_next pl).current_index =
        (pl.current_index + 1) % pl.num_playlists := by
      simp only [playlist_next, if_neg hne]
      exact Int.tmod_eq_emod (by omega) (by omega)
    have hprev : (playlist_prev pl).current_index =
        (pl.current_index - 1 + pl.num_playlists) % pl.num_playlists := by
      simp only [playlist_prev, if_neg hne]
      exact Int.tmod_eq_emod (by omega) (by omega)
    refine ⟨⟨by simp [playlist_next, if_neg hne], ?_, ?_⟩,
            ⟨by simp [playlist_prev, if_neg hne], ?_, ?_⟩, ?_, ?_, ?_⟩
    · rw [hnext]; exact Int.emod_nonneg _ hne
    · rw [hnext]; exact Int.emod_lt_of_pos _ hpos
    · rw [hprev]; exact Int.emod_nonneg _ hne
    · rw [hprev]; exact Int.emod_lt_of_pos _ hpos
    · intro hlast
      rw [hnext, hlast]
      have e : pl.num_playlists - 1 + 1 = pl.num_playlists := by ring
      rw [e, Int.emod_self]
    · intro hfirst
      rw [hprev, hfirst]
      have e : (0 : Int) - 1 + pl.num_playlists = pl.num_playlists - 1 := by ring
      rw [e, Int.emod_eq_of_lt (by omega) (by omega)]
    · simp [playlist_get_current, hne]

/-- Concrete playlist manager used by the C10 witness. -/
def plTwo : PlaylistManager :=
  { playlists := fun _ => "/sdcard/audio/song.mp3".toList,
    num_playlists := 2, current_index := 1 }

/-- Witness for C10: a two-entry playlist at index 1 wraps forward to 0,
backward to 0, and has a current path. -/
theorem c10_playlist_manager_witness :
    ((playlist_next plTwo).num_playlists = plTwo.num_playlists ∧
      0 ≤ (playlist_next plTwo).current_index ∧
      (playlist_next plTwo).current_index < plTwo.num_playlists) ∧
    ((playlist_prev plTwo).num_playlists = plTwo.num_playlists ∧
      0 ≤ (playlist_prev plTwo).current_index ∧
      (playlist_prev plTwo).current_index < plTwo.num_playlists) ∧
    (plTwo.current_index = plTwo.num_playlists - 1 →
      (playlist_next plTwo).current_index = 0) ∧
    (plTwo.current_index = 0 →
      (playlist_prev plTwo).current_index = plTwo.num_playlists - 1) ∧
    (playlist_get_current plTwo).isSome = true :=
  (c10_playlist_manager plTwo).2 (by decide) (by decide) (by decide)

/-- C4 (counterexample): starting settled (state 0, counters 0), bit 0 of the
raw sample held high for two consecutive calls never enters the change mask
and the returned state still reads 0 — the claim said two consecutive
differing samples suffice to register the change. -/
theorem c4_debounce_counterexample :
    (keypad_debounce 1 ⟨0, 0, 0⟩).2 = 0 ∧
    (keypad_debounce 1 (keypad_debounce 1 ⟨0, 0, 0⟩).1).2 = 0 ∧
    (keypad_debounce 1 (keypad_debounce 1 ⟨0, 0, 0⟩).1).1.state = 0 := by
  decide

/-- C4 (amended): from a settled state for bit `b` (both counters clear at
`b`), a raw bit that differs for exactly one call and reverts never appears
in the change mask and the state keeps its old value; a raw bit that differs
must be held for FOUR consecutive calls to register: the change mask reports
it exactly once, at the fourth call, and the returned state then reflects the
new value (the two 2-bit vertical counters count 4 rounds, not 2). -/
theorem c4_debounce (k : KeypadState) (b : Nat) (hb : b < 16)
    (hc0 : k.cnt0.testBit b = false) (hc1 : k.cnt1.testBit b = false)
    (s1 s2 s3 s4 : Nat) :
    ((s1.testBit b = !k.state.testBit b) → (s2.testBit b = k.state.testBit b) →
      (keypad_debounce s1 k).2.testBit b = false ∧
      (keypad_debounce s2 (keypad_debounce s1 k).1).2.testBit b = false ∧
      (keypad_debounce s2 (keypad_debounce s1 k).1).1.state.testBit b
        = k.state.testBit b) ∧
    ((s1.testBit b = !k.state.testBit b) → (s2.testBit b = !k.state.testBit b) →
     (s3.testBit b = !k.state.testBit b) → (s4.testBit b = !k.state.testBit b) →
      (keypad_debounce s1 k).2.testBit b = false ∧
      (keypad_debounce s2 (keypad_debounce s1 k).1).2.testBit b = false ∧
      (keypad_debounce s3
        (keypad_debounce s2 (keypad_debounce s1 k).1).1).2.testBit b = false ∧
      (keypad_debounce s4 (keypad_debounce s3
        (keypad_debounce s2 (keypad_debounce s1 k).1).1).1).2.testBit b = true ∧
      (keypad_debounce s4 (keypad_debounce s3
        (keypad_debounce s2 (keypad_debounce s1 k).1).1).1).1.state.testBit b
        = !k.state.testBit b) := by
  obtain ⟨a1, a2, a3, a4⟩ := keypad_debounce_testBit k s1 b hb
  obtain ⟨b1, b2, b3, b4⟩ := keypad_debounce_testBit (keypad_debounce s1 k).1 s2 b hb
  obtain ⟨d1, d2, d3, d4⟩ :=
    keypad_debounce_testBit (keypad_debounce s2 (keypad_debounce s1 k).1).1 s3 b hb
  obtain ⟨e1, e2, e3, e4⟩ :=
    keypad_debounce_testBit
      (keypad_debounce s3 (keypad_debounce s2 (keypad_debounce s1 k).1).1).1 s4 b hb
  simp only [hc0, hc1] at a1 a2 a3 a4
  simp only [a1, a2, a3] at b1 b2 b3 b4
  simp only [b1, b2, b3] at d1 d2 d3 d4
  simp only [d1, d2, d3] at e1 e2 e3 e4
  constructor
  · intro hs1 hs2
    simp only [hs1, hs2] at a4 b4 b1
    rw [a4, b4, b1]
    cases k.state.testBit b <;> decide
  · intro hs1 hs2 hs3 hs4
    simp only [hs1, hs2, hs3, hs4] at a4 b4 d4 e4 e1
    rw [a4, b4, d4, e4, e1]
    cases k.state.testBit b <;> decide

/-- Witness for C4's amended theorem: bit 0 from the all-zero settled state,
glitched high for one call and reverted, never shows in the change mask and
the state stays 0. -/
theorem c4_debounce_witness :
    (keypad_debounce 1 ⟨0, 0, 0⟩).2.testBit 0 = false ∧
    (keypad_debounce 0 (keypad_debounce 1 ⟨0, 0, 0⟩).1).2.testBit 0 = false ∧
    (keypad_debounce 0 (keypad_debounce 1 ⟨0, 0, 0⟩).1).1.state.testBit 0
      = (⟨0, 0, 0⟩ : KeypadState).state.testBit 0 :=
  (c4_debounce ⟨0, 0, 0⟩ 0 (by decide) (by decide) (by decide) 1 0 0 0).1
    (by decide) (by decide)

/-- C5 (counterexample): the tag size is decoded by the *unmasked*
`syncsafe`, so for the header bytes `[0x80, 0, 0, 0]` it yields
`0x10000000`, not the `0` the claim's masked formula
`((b0 & 0x7F) << 21) | ...` gives — the claim's "for every 4-byte input"
equation fails. -/
theorem c5_syncsafe_counterexample :
    syncsafe 128 0 0 0 = 268435456 ∧ syncsafe32 128 0 0 0 = 0 ∧
    syncsafe 128 0 0 0 ≠ syncsafe32 128 0 0 0 := by
  decide

/-- C5 (amended): the tag size is decoded as
`(b0 << 21) | (b1 << 14) | (b2 << 7) | b3` with *no* masking; this agrees
with the claim's masked syncsafe formula exactly when every byte already has
its high bit clear (as all valid syncsafe bytes do), and the claim's two
examples hold: `[0,0,0,0x20]` decodes to 32 and `[0x7F,0x7F,0x7F,0x7F]` to
`0x0FFFFFFF`. -/
theorem c5_syncsafe_amended (b0 b1 b2 b3 : Nat)
    (h0 : b0 < 128) (h1 : b1 < 128) (h2 : b2 < 128) (h3 : b3 < 128) :
    syncsafe b0 b1 b2 b3 = syncsafe32 b0 b1 b2 b3 ∧
    syncsafe 0 0 0 32 = 32 ∧ syncsafe 127 127 127 127 = 0x0FFFFFFF := by
  have m : ∀ b : Nat, b < 128 → b &&& 127 = b := by
    intro b hb
    rw [show (127 : Nat) = 2 ^ 7 - 1 from rfl, Nat.and_pow_two_sub_one_eq_mod,
      Nat.mod_eq_of_lt hb]
  refine ⟨?_, by decide, by decide⟩
  rw [syncsafe, syncsafe32, m b0 h0, m b1 h1, m b2 h2, m b3 h3]

/-- Witness for C5's amended theorem at the spec's own example bytes. -/
theorem c5_syncsafe_amended_witness :
    syncsafe 0 0 0 32 = syncsafe32 0 0 0 32 ∧
    syncsafe 0 0 0 32 = 32 ∧ syncsafe 127 127 127 127 = 0x0FFFFFFF :=
  c5_syncsafe_amended 0 0 0 32 (by decide) (by decide) (by decide) (by decide)

/-- C6: for every frame size, byte stream, and destination capacity
`max >= 1`, `read_text` writes at most `max` bytes, always ends what it
writes with a NUL terminator, writes the empty string (just the terminator)
for any encoding selector other than 0/1/2/3, and in the UTF-16 case every
byte before the terminator is a non-NUL byte below 128 (code units >= 128
were replaced by the `'?'` placeholder, and a NUL code unit or the capacity
bound stops the copy). -/
theorem c6_read_text (size0 : Nat) (f : Nat → Nat) (avail pos max : Nat)
    (hmax : 1 ≤ max) :
    (read_text size0 f avail pos max).1.length ≤ max ∧
    (read_text size0 f avail pos max).1.getLast? = some 0 ∧
    (pos < avail → ¬(f pos = 0 ∨ f pos = 3) → ¬(f pos = 1 ∨ f pos = 2) →
      (read_text size0 f avail pos max).1 = [0]) ∧
    (pos < avail → (f pos = 1 ∨ f pos = 2) →
      ∀ x ∈ (read_text size0 f avail pos max).1.dropLast, x < 128 ∧ x ≠ 0) := by
  simp only [read_text]
  generalize hleb : (!((if pos + 1 < avail then f (pos + 1) else 0) == 254 &&
      (if pos + 1 + 1 < avail then f (pos + 1 + 1) else 0) == 255)) = leb
  split_ifs with h1 h2 h3 h4 h5 h6
  · exact ⟨by simpa using hmax, by simp, fun _ _ _ => rfl, fun _ _ => by simp⟩
  · exact ⟨by simpa using hmax, by simp, fun hlt _ _ => by omega, fun hlt _ => by omega⟩
  · exact ⟨by simpa using hmax, by simp, fun _ _ _ => rfl, fun _ _ => by simp⟩
  · refine ⟨?_, by simp, fun _ hno _ => absurd h4 hno, ?_⟩
    · simp only [List.length_append, List.length_map, List.length_range,
        List.length_cons, List.length_nil]
      omega
    · intro _ h12
      rcases h4 with h | h <;> rcases h12 with h' | h' <;> omega
  · refine ⟨?_, by simp, fun _ hno _ => absurd h4 hno, ?_⟩
    · simp only [List.length_append, List.length_map, List.length_range,
        List.length_cons, List.length_nil]
      omega
    · intro _ h12
      rcases h4 with h | h <;> rcases h12 with h' | h' <;> omega
  · obtain ⟨hlen, hmem⟩ := read_text_loop_spec f avail leb
      max (((size0 + (2 ^ 32 - 1)) % 2 ^ 32 + (2 ^ 32 - 2)) % 2 ^ 32)
      (pos + 1 + min 2 (avail - (pos + 1))) 0
    refine ⟨?_, by simp, fun _ _ hno => absurd h6 hno, ?_⟩
    · simp only [List.length_append, List.length_cons, List.length_nil]
      omega
    · intro _ _ x hx
      rw [List.dropLast_concat] at hx
      exact hmem x hx
  · exact ⟨by simpa using hmax, by simp, fun _ _ _ => rfl,
      fun _ h12 => absurd h12 h6⟩

/-- A concrete UTF-16 (little-endian BOM) `"A"` text payload used by the C6
witness: selector 1, BOM FF FE, code unit 0x0041, NUL. -/
def utf16Stream : Nat → Nat := fun n => [1, 255, 254, 65, 0, 0, 0].getD n 0

/-- Witness for C6 on the concrete UTF-16 payload. -/
theorem c6_read_text_witness :
    (read_text 7 utf16Stream 7 0 64).1.length ≤ 64 ∧
    (read_text 7 utf16Stream 7 0 64).1.getLast? = some 0 :=
  ⟨(c6_read_text 7 utf16Stream 7 0 64 (by decide)).1,
   (c6_read_text 7 utf16Stream 7 0 64 (by decide)).2.1⟩

/-- C9: `mp3_read_metadata` returns `false` exactly when the file cannot be
opened; every openable file returns `true`, the metadata is zeroed before any
parse attempt, and a stream whose first three bytes are not `"ID3"` leaves
the zeroed (empty) fields untouched with the stream position restored to 0 —
a missing or unparsable tag is not an error. -/
theorem c9_mp3_read_metadata :
    (∀ file, (mp3_read_metadata file).1 = file.isSome) ∧
    (mp3_read_metadata Option.none).2 = zeroMeta ∧
    (∀ f avail meta, ¬(f 0 = 73 ∧ f 1 = 68 ∧ f 2 = 51) →
      parse_id3 f avail meta = (meta, 0)) ∧
    (∀ f avail, ¬(f 0 = 73 ∧ f 1 = 68 ∧ f 2 = 51) →
      (mp3_read_metadata (Option.some (f, avail))).2 = zeroMeta) := by
  have hparse : ∀ (f : Nat → Nat) avail meta,
      ¬(f 0 = 73 ∧ f 1 = 68 ∧ f 2 = 51) → parse_id3 f avail meta = (meta, 0) := by
    intro f avail meta hno
    simp only [parse_id3, if_neg hno]
  refine ⟨?_, rfl, hparse, ?_⟩
  · intro file
    cases file <;> rfl
  · intro f avail hno
    simp only [mp3_read_metadata, hparse f avail zeroMeta hno]

/-- Witness for C9: the all-zero one-byte stream has no ID3 signature, so
parsing leaves the metadata empty at position 0, and an unopenable file
reports `false`. -/
theorem c9_mp3_read_metadata_witness :
    parse_id3 (fun _ => 0) 1 zeroMeta = (zeroMeta, 0) ∧
    (mp3_read_metadata Option.none).1 = Option.isSome (α := (Nat → Nat) × Nat)
      Option.none :=
  ⟨c9_mp3_read_metadata.2.2.1 (fun _ => 0) 1 zeroMeta (by simp),
   c9_mp3_read_metadata.1 Option.none⟩

/-- Every entry of the play-all scan is skipped when no entry has a
resolvable codec, leaving the initial accumulator. -/
theorem scan_entries_all_unknown (params : AudioPlayerParam)
    (h : ∀ e ∈ params.entries,
      choose_codec (fops_determine_filetype e.name) = AudioCodec.unknown) :
    scan_entries params = ⟨0, []⟩ := by
  unfold scan_entries
  have key : ∀ (l : List (Nat × Entry)) (acc : ScanAcc),
      (∀ p ∈ l, choose_codec (fops_determine_filetype p.2.name) = AudioCodec.unknown) →
      l.foldl (scan_step params.index) acc = acc := by
    intro l
    induction l with
    | nil => intro acc _; rfl
    | cons p rest ih =>
      intro acc hall
      rw [List.foldl_cons,
        show scan_step params.index acc p = acc from by
          simp [scan_step, hall p (List.mem_cons_self _ _)]]
      exact ih acc fun q hq => hall q (List.mem_cons_of_mem _ hq)
  exact key _ _ fun p hp => h p.2 (List.snd_mem_of_mem_enum hp)

/-- The recorded starting position of the play-all scan is either 0 or a
strict position within the recorded songs. -/
theorem scan_entries_start_lt (params : AudioPlayerParam) :
    (scan_entries params).start_song = 0 ∨
    (scan_entries params).start_song < (scan_entries params).song_indices.length := by
  unfold scan_entries
  have key : ∀ (l : List (Nat × Entry)) (acc : ScanAcc),
      (acc.start_song = 0 ∨ acc.start_song < acc.song_indices.length) →
      ((l.foldl (scan_step params.index) acc).start_song = 0 ∨
        (l.foldl (scan_step params.index) acc).start_song <
          (l.foldl (scan_step params.index) acc).song_indices.length) := by
    intro l
    induction l with
    | nil => intro acc hacc; exact hacc
    | cons p rest ih =>
      intro acc hacc
      rw [List.foldl_cons]
      apply ih
      unfold scan_step
      split
      · simp only [List.length_append, List.length_cons, List.length_nil]
        split
        · right; omega
        · rcases hacc with h | h
          · left; exact h
          · right; omega
      · exact hacc
  exact key _ _ (Or.inl rfl)

/-- The always-succeeding allocator (a legal `malloc`, including for
zero-byte requests). -/
def allocAlways : Nat → Bool := fun _ => true

/-- The zero-initialized `PlayerState` the player task starts from. -/
def stZero : PlayerState :=
  { playing := false, playlist := [], playlist_length := 0, playlist_index := 0,
    playing_mode := PlayingMode.normal }

/-- C2 (counterexample): in play-all mode over one entry `"a.txt"` whose
codec is Unknown, with an allocator that satisfies the zero-byte request,
`make_playlist` returns success (0) with an empty playlist — the claim said
it must not report success. -/
theorem c2_empty_playlist_counterexample :
    (make_playlist allocAlways 0 stZero
      ⟨[⟨"a.txt".toList⟩], 0, "/sdcard/audio".toList, true⟩).1 = 0 ∧
    (make_playlist allocAlways 0 stZero
      ⟨[⟨"a.txt".toList⟩], 0, "/sdcard/audio".toList, true⟩).2.1.playlist_length = 0 ∧
    choose_codec (fops_determine_filetype "a.txt".toList) = AudioCodec.unknown := by
  decide

/-- C2 (amended): in Single mode `make_playlist` fails when the selected
entry's codec is Unknown, and in every mode it fails when the playlist
storage allocation fails; but emptiness is not checked in play-all mode:
over entries none of which has a resolved codec it *succeeds* with an empty
playlist whenever the zero-byte allocation succeeds (on the target ESP-IDF
allocator `malloc(0)` happens to return NULL, so the build only fails
through that allocator behavior, not through any explicit check). -/
theorem c2_make_playlist (alloc : Nat → Bool) (k : Nat) (st : PlayerState)
    (params : AudioPlayerParam) :
    (params.play_all = false →
      choose_codec (fops_determine_filetype
        (params.entries.getD params.index.toNat ⟨[]⟩).name) = AudioCodec.unknown →
      (make_playlist alloc k st params).1 = -1) ∧
    (alloc k = false → (make_playlist alloc k st params).1 = -1) ∧
    (params.play_all = true →
      (∀ e ∈ params.entries,
        choose_codec (fops_determine_filetype e.name) = AudioCodec.unknown) →
      alloc k = true →
      (make_playlist alloc k st params).1 = 0 ∧
      (make_playlist alloc k st params).2.1.playlist_length = 0) := by
  refine ⟨?_, ?_, ?_⟩
  · intro hpa hcodec
    rw [make_playlist, if_neg (by rw [hpa]; exact Bool.false_ne_true),
      if_pos hcodec]
  · intro hk
    by_cases hpa : params.play_all
    · rw [make_playlist, if_pos hpa,
        if_neg (by rw [hk]; exact Bool.false_ne_true)]
    · rw [make_playlist, if_neg hpa]
      dsimp only
      split_ifs with h1 h2
      · rfl
      · rw [hk] at h2; cases h2
      · rfl
  · intro hpa hall hk
    have hscan := scan_entries_all_unknown params hall
    simp [make_playlist, hpa, hscan, hk, build_songs]

/-- Witness for C2's amended theorem: Single mode on the Unknown-codec entry
`"a.txt"` fails with -1. -/
theorem c2_make_playlist_witness :
    (make_playlist allocAlways 0 stZero
      ⟨[⟨"a.txt".toList⟩], 0, "/sdcard/audio".toList, false⟩).1 = -1 :=
  (c2_make_playlist allocAlways 0 stZero
    ⟨[⟨"a.txt".toList⟩], 0, "/sdcard/audio".toList, false⟩).1 rfl (by decide)

/-- C3: on a polled `Terminate` the decode loop exits at that command-poll
point with `PlayerResultStop`, without decoding — that half of the claim
holds.  But the playlist storage is *never* released during task teardown:
`player_teardown_task` calls `vTaskDelete(NULL)` (which terminates the
calling task) *before* `free_playlist`, so the release runs zero times, not
exactly once. -/
theorem c3_terminate_teardown :
    (∀ (st : PlayerState) (n_decoded n_prev : Int),
      decode_loop_iter st PlayerCmd.terminate n_decoded n_prev =
        LoopOutcome.exit PlayerResult.stop) ∧
    run_teardown player_teardown_task =
      [TeardownStep.wdtDelete, TeardownStep.taskDelete] ∧
    List.count TeardownStep.freePlaylist (run_teardown player_teardown_task) = 0 :=
  ⟨fun _ _ _ => rfl, rfl, rfl⟩

/-- A state whose stale `playlist_index` (5) survives a Single-mode build,
used by the C7 counterexample. -/
def stStale5 : PlayerState :=
  { playing := false, playlist := [], playlist_length := 0, playlist_index := 5,
    playing_mode := PlayingMode.normal }

/-- C7 (counterexample): a successful Single-mode `make_playlist` does not
write `playlist_index` at all, so from a caller state with stale index 5 it
produces `playlist_length = 1` with `playlist_index = 5`, violating
`0 <= index < length` — the claim that `make_playlist` establishes the
invariant fails for the Single build mode. -/
theorem c7_invariant_counterexample :
    (make_playlist allocAlways 0 stStale5
      ⟨[⟨"a.mp3".toList⟩], 0, "/sdcard/audio".toList, false⟩).1 = 0 ∧
    (make_playlist allocAlways 0 stStale5
      ⟨[⟨"a.mp3".toList⟩], 0, "/sdcard/audio".toList, false⟩).2.1.playlist_length = 1 ∧
    (make_playlist allocAlways 0 stStale5
      ⟨[⟨"a.mp3".toList⟩], 0, "/sdcard/audio".toList, false⟩).2.1.playlist_index = 5 := by
  decide

/-- C7 (amended): the invariant `0 <= playlist_index < playlist_length`
(for `playlist_length > 0`) is established by every successful *play-all*
build (the recorded starting index lies within the built playlist); a
successful *Single* build sets `playlist_length = 1` but leaves
`playlist_index` unchanged, so there the invariant holds only if the
caller's previous index was already 0 (as with the task's zero-initialized
state); and the invariant is preserved by `get_next_song_index` for every
completion result, loop mode, and in-range index. -/
theorem c7_invariant (alloc : Nat → Bool) (k : Nat) (st : PlayerState)
    (params : AudioPlayerParam) :
    (params.play_all = true → (make_playlist alloc k st params).1 = 0 →
      0 < (make_playlist alloc k st params).2.1.playlist_length →
      0 ≤ (make_playlist alloc k st params).2.1.playlist_index ∧
      (make_playlist alloc k st params).2.1.playlist_index <
        ((make_playlist alloc k st params).2.1.playlist_length : Int)) ∧
    (params.play_all = false → (make_playlist alloc k st params).1 = 0 →
      (make_playlist alloc k st params).2.1.playlist_length = 1 ∧
      (make_playlist alloc k st params).2.1.playlist_index = st.playlist_index) ∧
    (∀ (res : PlayerResult) (i : Int), 0 < st.playlist_length →
      0 ≤ i → i < (st.playlist_length : Int) →
      0 ≤ get_next_song_index st res i ∧
      get_next_song_index st res i < (st.playlist_length : Int)) := by
  refine ⟨?_, ?_, ?_⟩
  · intro hpa
    have hstart := scan_entries_start_lt params
    rw [make_playlist, if_pos hpa]
    dsimp only
    split_ifs with h1 h2
    · intro _ hlen
      simp only at hlen ⊢
      constructor
      · positivity
      · rcases hstart with h | h
        · rw [h]; exact_mod_cast hlen
        · exact_mod_cast h
    · intro habs; cases habs
    · intro habs; cases habs
  · intro hpa
    rw [make_playlist, if_neg (by rw [hpa]; exact Bool.false_ne_true)]
    dsimp only
    split_ifs with h1 h2
    · intro habs; cases habs
    · match hcr : create_song_from_entry alloc (k + 1)
          (params.entries.getD params.index.toNat ⟨[]⟩) params.cwd with
      | (Option.none, k2) => simp [hcr]
      | (Option.some s, k2) => simp [hcr]
    · intro habs; cases habs
  · intro res i hL hi0 hiL
    have hL' : (0 : Int) < (st.playlist_length : Int) := by exact_mod_cast hL
    have htmod : ∀ j : Int, 0 ≤ j →
        0 ≤ j.tmod (st.playlist_length : Int) ∧
        j.tmod (st.playlist_length : Int) < (st.playlist_length : Int) := by
      intro j hj
      rw [Int.tmod_eq_emod hj (by omega)]
      exact ⟨Int.emod_nonneg _ (by omega), Int.emod_lt_of_pos _ hL'⟩
    cases res <;> simp only [get_next_song_index] <;> split_ifs <;>
      first
        | exact ⟨hi0, hiL⟩
        | exact htmod (i + 1) (by omega)
        | constructor <;> omega

/-- Witness for C7's amended theorem: a play-all build of
`["a.mp3", "b.ogg"]` started at entry 1 yields an in-range index. -/
theorem c7_invariant_witness :
    0 ≤ (make_playlist allocAlways 0 stZero
      ⟨[⟨"a.mp3".toList⟩, ⟨"b.ogg".toList⟩], 1, "/sdcard/audio".toList, true⟩).2.1.playlist_index ∧
    (make_playlist allocAlways 0 stZero
      ⟨[⟨"a.mp3".toList⟩, ⟨"b.ogg".toList⟩], 1, "/sdcard/audio".toList, true⟩).2.1.playlist_index <
      ((make_playlist allocAlways 0 stZero
        ⟨[⟨"a.mp3".toList⟩, ⟨"b.ogg".toList⟩], 1, "/sdcard/audio".toList, true⟩).2.1.playlist_length : Int) :=
  (c7_invariant allocAlways 0 stZero
    ⟨[⟨"a.mp3".toList⟩, ⟨"b.ogg".toList⟩], 1, "/sdcard/audio".toList, true⟩).1
    rfl (by decide) (by decide)

end EsplayAudio
